import Mathlib

/-!
Verification of the mkfat geometry planner and structure encoder.

Shallow embedding of the FAT12/16/32 formatter's core (geometry planner,
on-disk structure encoder, sector-map progress model, full-format
bad-sector scan) and proofs about it.

Conventions:
* Go machine integers (`uint8/uint16/uint32/int64`) are modelled as `Nat`
  (or `Int` where the source uses signed `int64`), with wrap-around applied
  explicitly (`% 2^32`, `% 2^16`) exactly where the Go operations wrap.
* Fallible Go functions returning `(..., error)` become `Except String ...`
  (or `Except` of a data payload when only the payload matters).
* Byte buffers are modelled as `List Nat` (one entry per byte) or, for the
  fixed 512-byte sectors, as overlay functions sampled into a 512-element
  list.
-/

deriving instance DecidableEq for Except

namespace Mkfat

/-- FATType represents the type of FAT filesystem (12, 16, or 32-bit). -/
inductive FATType where
  | fat12
  | fat16
  | fat32
deriving DecidableEq, Repr

/-- The `geom` struct of mkfat: BPB geometry fields.  All fields are machine
integers in the source (`uint16`/`uint8`/`uint32`); here they are `Nat`s
holding the machine values. -/
structure Geom where
  BytesPerSector : Nat
  SectorsPerCluster : Nat
  ReservedSectors : Nat
  NumFATs : Nat
  RootEntries : Nat
  TotalSectors16 : Nat
  Media : Nat
  SectorsPerFAT16 : Nat
  SectorsPerTrack : Nat
  NumHeads : Nat
  HiddenSectors : Nat
  TotalSectors32 : Nat
  SectorsPerFAT32 : Nat
  RootCluster : Nat
  FSInfoSector : Nat
  BackupBootSector : Nat
deriving DecidableEq, Repr

/-- `uint32` wrap-around. -/
def w32 (n : Nat) : Nat := n % 4294967296

/-- `uint16` wrap-around. -/
def w16 (n : Nat) : Nat := n % 65536

/-- `uint32` subtraction `a - b` (wrapping), for machine values. -/
def sub32 (a b : Nat) : Nat := (w32 a + 4294967296 - w32 b) % 4294967296

/-- The FAT size (in sectors) needed for `clusters` clusters under FAT12/16
entry widths, exactly as the body of `computeLayout`'s FAT12/16 loop
computes it (uint32 arithmetic):
`entries := clusters + 2`, `neededBytes := ((entries*3)+1)/2` (FAT12) or
`entries*2` (FAT16), `need := (neededBytes + bps - 1) / bps`. -/
def need1216 (ft : FATType) (bps clusters : Nat) : Nat :=
  let entries := w32 (clusters + 2)
  let neededBytes :=
    if ft = FATType.fat12 then w32 (w32 (entries * 3) + 1) / 2
    else w32 (entries * 2)
  sub32 (neededBytes + bps) 1 / bps

/-- The FAT size (in sectors) needed for `clusters` clusters under FAT32
entry width (4 bytes), as in `computeLayout`'s FAT32 loop:
`entries := clusters + 2`, `neededBytes := entries*4`,
`need := (neededBytes + bps - 1) / bps`. -/
def need32 (bps clusters : Nat) : Nat :=
  let entries := w32 (clusters + 2)
  let neededBytes := w32 (entries * 4)
  sub32 (neededBytes + bps) 1 / bps

/-- Result of the FAT-size convergence loop in `computeLayout`: the locals
`fatSectors`/`dataSectors`/`clusters` at loop exit, the final value of the
`SectorsPerFAT16`/`SectorsPerFAT32` field of the (mutated) geometry, whether
the loop exited via the `need == fatSectors` break (the candidate
stabilized), and how many iterations executed (ghost instrumentation). -/
structure LoopOut where
  fat : Nat
  data : Nat
  clusters : Nat
  spf : Nat
  stabilized : Bool
  iters : Nat
deriving DecidableEq, Repr

/-- The FAT12/16 convergence loop of `computeLayout` (`for i := 0; i < 8`),
with remaining iterations as fuel.  `spf` is the current
`g.SectorsPerFAT16`; `prev` carries the previous iteration's
`(fatSectors, dataSectors, clusters)` locals, which are what the loop leaves
behind when the iteration bound is exhausted.  Each non-break iteration
stores `uint16(need)` back into `SectorsPerFAT16`. -/
def loop1216 (ft : FATType) (bps spc res nf root total : Nat) :
    Nat → Nat → Nat × Nat × Nat → Nat → Except String LoopOut
  | 0, spf, prev, iters => .ok ⟨prev.1, prev.2.1, prev.2.2, spf, false, iters⟩
  | fuel + 1, spf, _, iters =>
    let fat := spf
    let data := sub32 (sub32 (sub32 total res) (w32 (nf * fat))) root
    if data = 0 then .error "dataSectors<=0"
    else
      let clusters := data / spc
      let need := need1216 ft bps clusters
      if need = fat then .ok ⟨fat, data, clusters, spf, true, iters + 1⟩
      else loop1216 ft bps spc res nf root total fuel (w16 need) (fat, data, clusters) (iters + 1)

/-- The FAT32 convergence loop of `computeLayout`.  A zero candidate is
bumped to 1 for the iteration's computations (`if fatSectors == 0 {
fatSectors = 1 }`); non-break iterations store `need` into
`SectorsPerFAT32` (no truncation). -/
def loop32 (bps spc res nf total : Nat) :
    Nat → Nat → Nat × Nat × Nat → Nat → Except String LoopOut
  | 0, spf, prev, iters => .ok ⟨prev.1, prev.2.1, prev.2.2, spf, false, iters⟩
  | fuel + 1, spf, _, iters =>
    let fat := if spf = 0 then 1 else spf
    let data := sub32 (sub32 total res) (w32 (nf * fat))
    if data = 0 then .error "dataSectors<=0"
    else
      let clusters := data / spc
      let need := need32 bps clusters
      if need = fat then .ok ⟨fat, data, clusters, spf, true, iters + 1⟩
      else loop32 bps spc res nf total fuel need (fat, data, clusters) (iters + 1)

/-- `rootDirSectors` as computed at the top of `computeLayout`:
`((RootEntries*32) + (BytesPerSector-1)) / BytesPerSector` in uint32
arithmetic (`BytesPerSector-1` is computed in uint16). -/
def rootDirSectorsOf (g : Geom) : Nat :=
  w32 (w32 (g.RootEntries * 32) + (g.BytesPerSector + 65535) % 65536) / g.BytesPerSector

/-- `totalSectors` as selected at the top of `computeLayout`: the 16-bit
field when non-zero, otherwise the 32-bit field. -/
def totalSectorsOf (g : Geom) : Nat :=
  if g.TotalSectors16 ≠ 0 then g.TotalSectors16 else g.TotalSectors32

/-- The convergence-loop invocation `computeLayout` makes for a given
variant and geometry: 8 iterations of fuel, starting from the geometry's
current sectors-per-FAT field, with Go's zero-initialised loop locals. -/
def runLoop (ft : FATType) (g : Geom) : Except String LoopOut :=
  match ft with
  | .fat32 =>
      loop32 g.BytesPerSector g.SectorsPerCluster g.ReservedSectors g.NumFATs
        (totalSectorsOf g) 8 g.SectorsPerFAT32 (0, 0, 0) 0
  | _ =>
      loop1216 ft g.BytesPerSector g.SectorsPerCluster g.ReservedSectors g.NumFATs
        (rootDirSectorsOf g) (totalSectorsOf g) 8 g.SectorsPerFAT16 (0, 0, 0) 0

/-- `computeLayout`: returns `(fatSectors, rootDirSectors, dataSectors,
clusters, g')` where `g'` is the geometry after the loop's mutation of its
sectors-per-FAT field (the source takes `*geom` and mutates in place).
For FAT32 the returned FAT size is the (possibly freshly updated)
`g.SectorsPerFAT32` field; for FAT12/16 it is the loop-local `fatSectors`. -/
def computeLayout (ft : FATType) (g : Geom) :
    Except String (Nat × Nat × Nat × Nat × Geom) :=
  match ft with
  | .fat32 =>
    if g.ReservedSectors < 32 then .error "FAT32 requires >= 32 reserved sectors"
    else
      match runLoop FATType.fat32 g with
      | .error e => .error e
      | .ok out =>
        if out.clusters < 65525 then .error "clusters too small for FAT32"
        else .ok (out.spf, 0, out.data, out.clusters, { g with SectorsPerFAT32 := out.spf })
  | _ =>
      match runLoop ft g with
      | .error e => .error e
      | .ok out =>
        if ft = FATType.fat12 ∧ 4085 ≤ out.clusters then
          .error "clusters invalid for FAT12"
        else if ft = FATType.fat16 ∧ (out.clusters < 4085 ∨ 65524 < out.clusters) then
          .error "clusters invalid for FAT16"
        else
          .ok (out.fat, rootDirSectorsOf g, out.data, out.clusters,
               { g with SectorsPerFAT16 := out.spf })

/-- The zero-valued `geom` with the defaults `presetForSizeBytes` starts
from: 512 bytes/sector, 1 reserved sector, 2 FATs, media 0xF0, 2 heads. -/
def baseGeom : Geom :=
  { BytesPerSector := 512, SectorsPerCluster := 0, ReservedSectors := 1, NumFATs := 2,
    RootEntries := 0, TotalSectors16 := 0, Media := 0xF0, SectorsPerFAT16 := 0,
    SectorsPerTrack := 0, NumHeads := 2, HiddenSectors := 0, TotalSectors32 := 0,
    SectorsPerFAT32 := 0, RootCluster := 0, FSInfoSector := 0, BackupBootSector := 0 }

/-- `presetForSizeBytes`: canonical floppy capacities first (regardless of
variant), then variant-specific defaults by size bracket. -/
def presetForSizeBytes (ft : FATType) (size : Nat) : Except String Geom :=
  let g := baseGeom
  if size = 360 * 1024 then
    .ok { g with SectorsPerTrack := 9, RootEntries := 64, SectorsPerCluster := 2,
                 TotalSectors16 := w16 (size / 512), SectorsPerFAT16 := 2 }
  else if size = 720 * 1024 then
    .ok { g with SectorsPerTrack := 9, RootEntries := 112, SectorsPerCluster := 2,
                 TotalSectors16 := w16 (size / 512), SectorsPerFAT16 := 3 }
  else if size = 1200 * 1024 then
    .ok { g with SectorsPerTrack := 15, RootEntries := 224, SectorsPerCluster := 1,
                 TotalSectors16 := w16 (size / 512), SectorsPerFAT16 := 7 }
  else if size = 1440 * 1024 then
    .ok { g with SectorsPerTrack := 18, RootEntries := 224, SectorsPerCluster := 1,
                 TotalSectors16 := w16 (size / 512), SectorsPerFAT16 := 9 }
  else if size = 2880 * 1024 then
    let g := { g with SectorsPerTrack := 36, RootEntries := 240,
                      TotalSectors16 := w16 (size / 512) }
    match ft with
    | .fat12 => .ok { g with SectorsPerCluster := 1, SectorsPerFAT16 := 9 }
    | .fat16 => .ok { g with SectorsPerCluster := 2, SectorsPerFAT16 := 18 }
    | .fat32 => .ok g
  else if ft = FATType.fat12 ∧ size < 16 * 1024 * 1024 then
    let g := { g with SectorsPerTrack := 32, RootEntries := 512, SectorsPerCluster := 1,
                      SectorsPerFAT16 := 16 }
    let ts := w32 (size / 512)
    .ok (if ts ≤ 0xFFFF then { g with TotalSectors16 := ts }
         else { g with TotalSectors32 := ts })
  else if ft = FATType.fat16 ∧ size ≤ 32 * 1024 * 1024 then
    let spc : Nat :=
      if size ≤ 4 * 1024 * 1024 then 2
      else if size ≤ 8 * 1024 * 1024 then 4
      else if size ≤ 16 * 1024 * 1024 then 8
      else 16
    let g := { g with SectorsPerTrack := 32, RootEntries := 512, SectorsPerCluster := spc,
                      SectorsPerFAT16 := 32 }
    let ts := w32 (size / 512)
    .ok (if ts ≤ 0xFFFF then { g with TotalSectors16 := ts }
         else { g with TotalSectors32 := ts })
  else if ft = FATType.fat32 then
    let spc : Nat :=
      if size ≤ 260 * 1024 * 1024 then 8
      else if size ≤ 8 * 1024 * 1024 * 1024 then 8
      else if size ≤ 32 * 1024 * 1024 * 1024 then 16
      else 32
    let g := { g with Media := 0xF8, RootEntries := 0, ReservedSectors := 32,
                      FSInfoSector := 1, BackupBootSector := 6, RootCluster := 2,
                      SectorsPerTrack := 63, NumHeads := 255, SectorsPerCluster := spc }
    let ts := w32 (size / 512)
    .ok (if ts ≤ 0xFFFF then { g with TotalSectors16 := ts }
         else { g with TotalSectors32 := ts })
  else .error "unsupported size"

/-- The format command's total-sector assignment: given the computed
`total` (a uint32 value), store it in the 16-bit field and zero the 32-bit
field when it fits in 16 bits, and vice versa otherwise. -/
def setTotals (total : Nat) (g : Geom) : Geom :=
  if total ≤ 0xFFFF then { g with TotalSectors16 := total, TotalSectors32 := 0 }
  else { g with TotalSectors16 := 0, TotalSectors32 := total }

/-- The planner pipeline up to the geometry descriptor: preset selection for
`(ft, size)` followed by the format command's (no-override) total-sector
assignment `total := uint32(size/512)`. -/
def planGeom (ft : FATType) (size : Nat) : Except String Geom :=
  (presetForSizeBytes ft size).map (setTotals (w32 (size / 512)))

/-- The planner pipeline through `computeLayout`. -/
def planLayout (ft : FATType) (size : Nat) :
    Except String (Nat × Nat × Nat × Nat × Geom) :=
  (planGeom ft size).bind (computeLayout ft)

/-- `padRight`: truncate a byte string to at most `n` bytes and pad with
ASCII spaces (0x20) up to exactly `n` bytes. -/
def padRight (s : List Nat) (n : Nat) : List Nat :=
  let s := if n < s.length then s.take n else s
  s ++ List.replicate (n - s.length) 32

/-- ASCII bytes of a Lean string literal (all strings used here are ASCII). -/
def strBytes (s : String) : List Nat := s.toList.map Char.toNat

/-- The little-endian byte quadruple of a uint32 value. -/
def u32le (v : Nat) : List Nat :=
  [v % 256, v / 256 % 256, v / 65536 % 256, v / 16777216 % 256]

/-- A 512-byte sector under construction, as an overlay function from byte
offset to byte value (offsets ≥ 512 are never written or read by the
builders). -/
def SecBuf : Type := Nat → Nat

/-- `make([]byte, 512)`: all zero. -/
def emptySec : SecBuf := fun _ => 0

/-- `sec[off] = v` (every use site has `off < 512`). -/
def wrB (b : SecBuf) (off v : Nat) : SecBuf :=
  fun i => if i = off then v else b i

/-- `copy(sec[off:], src)`: writes `src` at `off`, truncated at the 512-byte
buffer end exactly as Go `copy` truncates at the destination length. -/
def wrList (b : SecBuf) (off : Nat) (src : List Nat) : SecBuf :=
  fun i => if off ≤ i ∧ i < off + src.length ∧ i < 512 then src.getD (i - off) 0 else b i

/-- `binary.LittleEndian.PutUint16(sec[off:], v)`. -/
def wr16 (b : SecBuf) (off v : Nat) : SecBuf :=
  wrList b off [v % 256, v / 256 % 256]

/-- `binary.LittleEndian.PutUint32(sec[off:], v)`. -/
def wr32 (b : SecBuf) (off v : Nat) : SecBuf :=
  wrList b off (u32le v)

/-- Sample a sector overlay into its 512-byte list. -/
def secList (b : SecBuf) : List Nat :=
  List.ofFn (fun i : Fin 512 => b i.val)

/-- The MS-DOS compatible boot code stub shared by both boot-sector
builders (29 bytes). -/
def bootCodeStub : List Nat :=
  [0x0E, 0x1F, 0xBE, 0x77, 0x7C, 0xAC, 0x22, 0xC0, 0x74, 0x0B, 0x56, 0xB4, 0x0E,
   0xBB, 0x07, 0x00, 0xCD, 0x10, 0x5E, 0xEB, 0xF0, 0x32, 0xE4, 0xCD, 0x16, 0xCD,
   0x19, 0xEB, 0xFE]

/-- The FAT32 variant of the stub differs only in the message offset operand
(bytes 3–4: 0xA3 0x7C instead of 0x77 0x7C). -/
def bootCodeStub32 : List Nat :=
  [0x0E, 0x1F, 0xBE, 0xA3, 0x7C, 0xAC, 0x22, 0xC0, 0x74, 0x0B, 0x56, 0xB4, 0x0E,
   0xBB, 0x07, 0x00, 0xCD, 0x10, 0x5E, 0xEB, 0xF0, 0x32, 0xE4, 0xCD, 0x16, 0xCD,
   0x19, 0xEB, 0xFE]

/-- The boot message written after the stub (70 bytes including the
terminating NUL). -/
def bootMsg : List Nat :=
  strBytes "Non-system disk or disk error\r\nReplace and press any key when ready\r\n\x00"

/-- Default volume label `"NO NAME    "`. -/
def noNameLabel : List Nat := strBytes "NO NAME    "

/-- Default OEM string `"EARMKFAT"`. -/
def defaultOEM : List Nat := strBytes "EARMKFAT"

/-- The filesystem-type string written at offset 54: `"FAT12   "` for
FAT12, `"FAT16   "` otherwise. -/
def fsTypeStr1216 (ft : FATType) : List Nat :=
  if ft = FATType.fat12 then strBytes "FAT12   " else strBytes "FAT16   "

/-- `buildBootSector1216`: the FAT12/16 boot sector (512 bytes). -/
def buildBootSector1216 (ft : FATType) (g : Geom) (volLabel oem : List Nat) : List Nat :=
  let volLabel := if volLabel.isEmpty then noNameLabel else volLabel
  let oem := if oem.isEmpty then defaultOEM else oem
  let sec := emptySec
  let sec := wrB (wrB (wrB sec 0 0xEB) 1 0x3C) 2 0x90
  let sec := wrList sec 3 (padRight oem 8)
  let sec := wr16 sec 11 g.BytesPerSector
  let sec := wrB sec 13 g.SectorsPerCluster
  let sec := wr16 sec 14 g.ReservedSectors
  let sec := wrB sec 16 g.NumFATs
  let sec := wr16 sec 17 g.RootEntries
  let sec := wr16 sec 19 g.TotalSectors16
  let sec := wrB sec 21 g.Media
  let sec := wr16 sec 22 g.SectorsPerFAT16
  let sec := wr16 sec 24 g.SectorsPerTrack
  let sec := wr16 sec 26 g.NumHeads
  let sec := wr32 sec 28 g.HiddenSectors
  let sec := wr32 sec 32 g.TotalSectors32
  let sec := wrB (wrB (wrB sec 36 0x00) 37 0x00) 38 0x29
  let sec := wr32 sec 39 0x12345678
  let sec := wrList sec 43 (padRight volLabel 11)
  let sec := wrList sec 54 (fsTypeStr1216 ft)
  let sec := wrList sec 62 bootCodeStub
  let sec := wrList sec 119 bootMsg
  let sec := wrB (wrB sec 510 0x55) 511 0xAA
  secList sec

/-- `buildBootSector32`: the FAT32 boot sector (512 bytes). -/
def buildBootSector32 (g : Geom) (volLabel oem : List Nat) : List Nat :=
  let volLabel := if volLabel.isEmpty then noNameLabel else volLabel
  let oem := if oem.isEmpty then defaultOEM else oem
  let sec := emptySec
  let sec := wrB (wrB (wrB sec 0 0xEB) 1 0x58) 2 0x90
  let sec := wrList sec 3 (padRight oem 8)
  let sec := wr16 sec 11 g.BytesPerSector
  let sec := wrB sec 13 g.SectorsPerCluster
  let sec := wr16 sec 14 g.ReservedSectors
  let sec := wrB sec 16 g.NumFATs
  let sec := wr16 sec 17 0
  let sec := if g.TotalSectors16 ≠ 0 then wr16 sec 19 g.TotalSectors16 else sec
  let sec := wrB sec 21 g.Media
  let sec := wr16 sec 22 0
  let sec := wr16 sec 24 g.SectorsPerTrack
  let sec := wr16 sec 26 g.NumHeads
  let sec := wr32 sec 28 g.HiddenSectors
  let sec := wr32 sec 32 g.TotalSectors32
  let sec := wr32 sec 36 g.SectorsPerFAT32
  let sec := wr16 sec 40 0
  let sec := wr16 sec 42 0
  let sec := wr32 sec 44 g.RootCluster
  let sec := wr16 sec 48 g.FSInfoSector
  let sec := wr16 sec 50 g.BackupBootSector
  let sec := wrB (wrB (wrB sec 64 0x80) 65 0x00) 66 0x29
  let sec := wr32 sec 67 0x12345678
  let sec := wrList sec 71 (padRight volLabel 11)
  let sec := wrList sec 82 (strBytes "FAT32   ")
  let sec := wrList sec 90 bootCodeStub32
  let sec := wrList sec 163 bootMsg
  let sec := wrB (wrB sec 510 0x55) 511 0xAA
  secList sec

/-- `buildFSInfo`: the FAT32 FSInfo sector (512 bytes). -/
def buildFSInfo : List Nat :=
  let sec := emptySec
  let sec := wr32 sec 0 0x41615252
  let sec := wr32 sec 484 0x61417272
  let sec := wr32 sec 488 0xFFFFFFFF
  let sec := wr32 sec 492 0x00000002
  let sec := wr32 sec 508 0xAA550000
  secList sec

/-- `initFAT1216`: reserve the first FAT entries for FAT12 (3 bytes:
media, 0xFF, 0xFF) or FAT16 (4 bytes: media, 0xFF, 0xFF, 0xFF), guarded by
the buffer length as in the source. -/
def initFAT1216 (ft : FATType) (b : List Nat) (media : Nat) : List Nat :=
  match ft with
  | .fat12 =>
      if 3 ≤ b.length then ((b.set 0 media).set 1 0xFF).set 2 0xFF else b
  | _ =>
      if 4 ≤ b.length then (((b.set 0 media).set 1 0xFF).set 2 0xFF).set 3 0xFF else b

/-- The `put` helper inside `initFAT32`: `PutUint32(b[idx*4:], v)` guarded
by `idx*4+4 <= len(b)`. -/
def putEntry32 (b : List Nat) (idx v : Nat) : List Nat :=
  if idx * 4 + 4 ≤ b.length then
    (((b.set (idx * 4) (v % 256)).set (idx * 4 + 1) (v / 256 % 256)).set
        (idx * 4 + 2) (v / 65536 % 256)).set (idx * 4 + 3) (v / 16777216 % 256)
  else b

/-- `initFAT32`: reserve FAT entries 0–2 with
`0x0FFFFF00|media, 0x0FFFFFFF, 0x0FFFFFFF` (little-endian). -/
def initFAT32 (b : List Nat) (media : Nat) : List Nat :=
  putEntry32 (putEntry32 (putEntry32 b 0 (Nat.lor 0x0FFFFF00 media)) 1 0x0FFFFFFF)
    2 0x0FFFFFFF

/-- The FAT buffer the format command builds: `make([]byte, fatBytes)`
zero-filled, then initialised per variant. -/
def fatBuf (ft : FATType) (media fatBytes : Nat) : List Nat :=
  if ft = FATType.fat32 then initFAT32 (List.replicate fatBytes 0) media
  else initFAT1216 ft (List.replicate fatBytes 0) media

/-- The two FAT-copy writes the format command issues (absolute start
sector, payload): FAT #1 at `ReservedSectors`, FAT #2 at
`ReservedSectors + fatSecs`, both from the same `fatBuf`. -/
def fatCopyWrites (ft : FATType) (g : Geom) (fatSecs : Nat) :
    (Nat × List Nat) × (Nat × List Nat) :=
  let buf := fatBuf ft g.Media (fatSecs * g.BytesPerSector)
  ((g.ReservedSectors, buf), (g.ReservedSectors + fatSecs, buf))

/-- `progressTracker` of main.go: a per-sector boolean completion map with
`int64` bookkeeping fields. -/
structure ProgressTracker where
  progressMap : List Bool
  totalSectors : Int
  currentPos : Int
deriving DecidableEq, Repr

/-- `newProgressTracker(total)`: `make([]bool, total)` plus the total (the
source takes an `int64`; a negative total would make `make` panic, so the
model takes a `Nat`). -/
def newProgressTracker (total : Nat) : ProgressTracker :=
  { progressMap := List.replicate total false, totalSectors := (total : Int), currentPos := 0 }

/-- The body of `markRange`'s `for i := start; i < end; i++` loop, running
`n` iterations from index `i`: each in-range index (`i >= 0 && i <
len(progressMap)`) is set to `true`, others are skipped. -/
def markSeq (pm : List Bool) (i : Int) : Nat → List Bool
  | 0 => pm
  | n + 1 =>
      markSeq (if 0 ≤ i ∧ i.toNat < pm.length then pm.set i.toNat true else pm) (i + 1) n

/-- `progressTracker.markRange(start, count)`: clamp the exclusive end to
`totalSectors`, mark every in-range index, and advance `currentPos` to
`end-1` when that is non-negative. -/
def markRange (pt : ProgressTracker) (start count : Int) : ProgressTracker :=
  let e := start + count
  let e := if pt.totalSectors < e then pt.totalSectors else e
  { pt with
    progressMap := markSeq pt.progressMap start (e - start).toNat,
    currentPos := if 0 ≤ e - 1 then e - 1 else pt.currentPos }

/-- `progressTracker.writtenCount()`: the number of `true` entries. -/
def writtenCount (pt : ProgressTracker) : Nat := pt.progressMap.count true

/-- A whole run's worth of `markRange` calls, applied in order. -/
def applyMarks (pt : ProgressTracker) : List (Int × Int) → ProgressTracker
  | [] => pt
  | (s, c) :: rest => applyMarks (markRange pt s c) rest

/-- The sector map and counters of `retrodfrg.UI` relevant to `MarkRange`. -/
structure UIModel where
  sectorMap : List Bool
  totalSectors : Int
  written : Int
  curAbs : Int
deriving DecidableEq, Repr

/-- The state `NewUI` builds: `totalSectors = bytesTotal/512`,
`sectorMap = make([]bool, totalSectors)`, counters zero. -/
def newUIModel (bytesTotal : Nat) : UIModel :=
  { sectorMap := List.replicate (bytesTotal / 512) false,
    totalSectors := ((bytesTotal / 512 : Nat) : Int), written := 0, curAbs := 0 }

/-- The body of `UI.MarkRange`'s loop, running `n` iterations from index
`i`: a not-yet-set entry is set and `written` incremented.  The source
indexes `u.sectorMap[i]` without a bounds check and panics outside
`[0, len)`; the model leaves the state unchanged there (all calls in a run
stay in range). -/
def uiMarkSeq (pm : List Bool) (wr : Int) (i : Int) : Nat → List Bool × Int
  | 0 => (pm, wr)
  | n + 1 =>
      if 0 ≤ i ∧ i.toNat < pm.length then
        if pm.getD i.toNat false then uiMarkSeq pm wr (i + 1) n
        else uiMarkSeq (pm.set i.toNat true) (wr + 1) (i + 1) n
      else uiMarkSeq pm wr (i + 1) n

/-- `UI.MarkRange(absStart, sectors)`. -/
def uiMarkRange (u : UIModel) (absStart sectors : Int) : UIModel :=
  let e := absStart + sectors
  let e := if u.totalSectors < e then u.totalSectors else e
  let r := uiMarkSeq u.sectorMap u.written absStart (e - absStart).toNat
  { u with
    sectorMap := r.1, written := r.2,
    curAbs := if 0 ≤ e - 1 then e - 1 else u.curAbs }

/-- A whole run's worth of `UI.MarkRange` calls, applied in order. -/
def applyUIMarks (u : UIModel) : List (Int × Int) → UIModel
  | [] => u
  | (s, c) :: rest => applyUIMarks (uiMarkRange u s c) rest

/-- `checkBadSector`'s verification outcome over an abstract read-back
target: the pattern byte `byte(sector & 0xFF)` is written to all 512 bytes
of the sector and read back via `readBack`; the check succeeds iff every
byte read equals the pattern.  (I/O errors of the underlying target are
outside this model; only verification mismatches are represented.) -/
def checkBadSector (readBack : Nat → Nat → Nat) (sector : Nat) : Except String Unit :=
  if (List.range 512).all (fun i => readBack sector i == sector % 256) then .ok ()
  else .error "verification failed"

set_option linter.unusedVariables false in
/-- The chunked scan of `fullFormatDataArea`: 1 MiB (2048-sector) chunks,
each sector checked with `checkBadSector` and appended to the running
bad-sector list on failure. -/
def collectBad (readBack : Nat → Nat → Nat) (remaining pos : Nat) (acc : List Nat) :
    List Nat :=
  if h : remaining = 0 then acc
  else
    let k := min 2048 remaining
    collectBad readBack (remaining - k) (pos + k)
      (acc ++ ((List.range k).map (pos + ·)).filter
        (fun s => !(checkBadSector readBack s).isOk))
termination_by remaining
decreasing_by
  have : min 2048 remaining ≤ 2048 := Nat.min_le_left _ _
  have : 1 ≤ min 2048 remaining := by
    have : 1 ≤ remaining := Nat.one_le_iff_ne_zero.mpr h
    exact le_min (by norm_num) this
  omega

/-- `fullFormatDataArea`: zero the data area in chunks, verify every sector,
and return an error carrying the aggregated bad-sector indices iff any
sector failed verification (the source formats them into the error
message `"found %d bad sector(s): %v"`). -/
def fullFormatDataArea (readBack : Nat → Nat → Nat) (absStart sectors : Nat) :
    Except (List Nat) Unit :=
  let badSectors := collectBad readBack sectors absStart []
  if badSectors = [] then .ok () else .error badSectors

/-- The geometry the planner produces for FAT12 at 1.44M (1,474,560
bytes): the canonical preset with the total stored in the 16-bit field. -/
def geom1440 : Geom :=
  { BytesPerSector := 512, SectorsPerCluster := 1, ReservedSectors := 1, NumFATs := 2,
    RootEntries := 224, TotalSectors16 := 2880, Media := 0xF0, SectorsPerFAT16 := 9,
    SectorsPerTrack := 18, NumHeads := 2, HiddenSectors := 0, TotalSectors32 := 0,
    SectorsPerFAT32 := 0, RootCluster := 0, FSInfoSector := 0, BackupBootSector := 0 }

/- ===================== helper lemmas ===================== -/

theorem padRight_length (s : List Nat) (n : Nat) : (padRight s n).length = n := by
  simp only [padRight]
  split
  all_goals simp
  all_goals omega

theorem noNameLabel_length : noNameLabel.length = 11 := by rfl

theorem defaultOEM_length : defaultOEM.length = 8 := by rfl

theorem bootMsg_length : bootMsg.length = 70 := by rfl

theorem bootCodeStub_length : bootCodeStub.length = 29 := by rfl

theorem bootCodeStub32_length : bootCodeStub32.length = 29 := by rfl

theorem getElem?_secList (b : SecBuf) (i : Nat) :
    (secList b)[i]? = if i < 512 then some (b i) else none := by
  by_cases h : i < 512
  · simp only [secList, List.getElem?_ofFn, List.ofFnNthVal, dif_pos h, if_pos h]
  · simp only [secList, List.getElem?_ofFn, List.ofFnNthVal, dif_neg h, if_neg h]

theorem length_secList (b : SecBuf) : (secList b).length = 512 :=
  List.length_ofFn _

theorem padRight_eq (s : List Nat) (n : Nat) :
    padRight s n = s.take n ++ List.replicate (n - s.length) 32 := by
  simp only [padRight]
  split
  · rename_i h
    have h1 : n - s.length = 0 := by omega
    have h2 : n - (s.take n).length = 0 := by
      simp only [List.length_take]
      omega
    simp [h1, h2]
    omega
  · rename_i h
    have : s.take n = s := List.take_of_length_le (by omega)
    simp [this]

theorem getD_opt (l : List Nat) (i : Nat) (h : i < l.length) :
    some (l[i]?.getD 0) = l[i]? := by
  rw [List.getElem?_eq_getElem h]
  rfl

theorem fsTypeStr1216_length (ft : FATType) : (fsTypeStr1216 ft).length = 8 := by
  simp only [fsTypeStr1216]
  split <;> rfl

/-- C3: every FAT12/16 and FAT32 boot sector is exactly 512 bytes, carries
the 0x55 0xAA signature at offsets 510–511 and the extended-signature byte
0x29 at its mandated offset (38 for FAT12/16, 66 for FAT32); the FSInfo
sector is 512 bytes with little-endian lead signature 0x41615252 at offset
0 and trail signature 0x61417272 at offset 484. -/
theorem bootSector_signatures :
    (∀ (ft : FATType) (g : Geom) (volLabel oem : List Nat),
      (buildBootSector1216 ft g volLabel oem).length = 512 ∧
      (buildBootSector1216 ft g volLabel oem)[510]? = some 0x55 ∧
      (buildBootSector1216 ft g volLabel oem)[511]? = some 0xAA ∧
      (buildBootSector1216 ft g volLabel oem)[38]? = some 0x29) ∧
    (∀ (g : Geom) (volLabel oem : List Nat),
      (buildBootSector32 g volLabel oem).length = 512 ∧
      (buildBootSector32 g volLabel oem)[510]? = some 0x55 ∧
      (buildBootSector32 g volLabel oem)[511]? = some 0xAA ∧
      (buildBootSector32 g volLabel oem)[66]? = some 0x29) ∧
    (buildFSInfo.length = 512 ∧
      buildFSInfo[0]? = some 0x52 ∧ buildFSInfo[1]? = some 0x52 ∧
      buildFSInfo[2]? = some 0x61 ∧ buildFSInfo[3]? = some 0x41 ∧
      buildFSInfo[484]? = some 0x72 ∧ buildFSInfo[485]? = some 0x72 ∧
      buildFSInfo[486]? = some 0x41 ∧ buildFSInfo[487]? = some 0x61) := by
  refine ⟨fun ft g volLabel oem => ⟨?_, ?_, ?_, ?_⟩,
          fun g volLabel oem => ⟨?_, ?_, ?_, ?_⟩, ?_⟩
  · simp only [buildBootSector1216, length_secList]
  · simp only [buildBootSector1216, getElem?_secList, wrB, wrList, wr16, wr32, u32le,
      padRight_length, fsTypeStr1216_length, bootMsg_length, bootCodeStub_length,
      ite_apply]
    norm_num
  · simp only [buildBootSector1216, getElem?_secList, wrB, wrList, wr16, wr32, u32le,
      padRight_length, fsTypeStr1216_length, bootMsg_length, bootCodeStub_length,
      ite_apply]
    norm_num
  · simp only [buildBootSector1216, getElem?_secList, wrB, wrList, wr16, wr32, u32le,
      padRight_length, fsTypeStr1216_length, bootMsg_length, bootCodeStub_length,
      ite_apply]
    norm_num
  · simp only [buildBootSector32, length_secList]
  · simp only [buildBootSector32, getElem?_secList, wrB, wrList, wr16, wr32, u32le,
      padRight_length, bootMsg_length, bootCodeStub32_length, ite_apply]
    norm_num
  · simp only [buildBootSector32, getElem?_secList, wrB, wrList, wr16, wr32, u32le,
      padRight_length, bootMsg_length, bootCodeStub32_length, ite_apply]
    norm_num
  · simp only [buildBootSector32, getElem?_secList, wrB, wrList, wr16, wr32, u32le,
      padRight_length, bootMsg_length, bootCodeStub32_length, ite_apply]
    norm_num
  · refine ⟨by simp only [buildFSInfo, length_secList], ?_, ?_, ?_, ?_, ?_, ?_, ?_, ?_⟩ <;>
      (simp only [buildFSInfo, getElem?_secList, wrB, wrList, wr16, wr32, u32le, ite_apply]
       norm_num)

set_option maxHeartbeats 3200000 in
/-- C10: `padRight(s, n)` returns exactly `n` bytes — the first
`min(len(s), n)` bytes of `s` followed by ASCII spaces — and consequently
the boot-sector builders silently truncate a volume label longer than 11
bytes (offsets 43–53 for FAT12/16, 71–81 for FAT32) and an OEM string
longer than 8 bytes (offsets 3–10) instead of rejecting them. -/
theorem padRight_spec_and_truncation :
    (∀ (s : List Nat) (n : Nat),
      (padRight s n).length = n ∧
      padRight s n = s.take n ++ List.replicate (n - s.length) 32) ∧
    (∀ (ft : FATType) (g : Geom) (volLabel oem : List Nat),
      ((buildBootSector1216 ft g volLabel oem).drop 43).take 11 =
        padRight (if volLabel.isEmpty then noNameLabel else volLabel) 11) ∧
    (∀ (ft : FATType) (g : Geom) (volLabel oem : List Nat),
      ((buildBootSector1216 ft g volLabel oem).drop 3).take 8 =
        padRight (if oem.isEmpty then defaultOEM else oem) 8) ∧
    (∀ (g : Geom) (volLabel oem : List Nat),
      ((buildBootSector32 g volLabel oem).drop 71).take 11 =
        padRight (if volLabel.isEmpty then noNameLabel else volLabel) 11) := by
  refine ⟨fun s n => ⟨padRight_length s n, padRight_eq s n⟩, ?_, ?_, ?_⟩
  · intro ft g volLabel oem
    apply List.ext_getElem?
    intro n
    rw [List.getElem?_take]
    by_cases hn : n < 11
    · rw [if_pos hn, List.getElem?_drop]
      interval_cases n <;>
        (simp only [buildBootSector1216, getElem?_secList, wrB, wrList, wr16, wr32, u32le,
           padRight_length, fsTypeStr1216_length, bootMsg_length, bootCodeStub_length,
           ite_apply]
         norm_num)
      all_goals (apply getD_opt; simp [padRight_length])
    · rw [if_neg hn]
      symm
      apply List.getElem?_eq_none
      rw [padRight_length]
      omega
  · intro ft g volLabel oem
    apply List.ext_getElem?
    intro n
    rw [List.getElem?_take]
    by_cases hn : n < 8
    · rw [if_pos hn, List.getElem?_drop]
      interval_cases n <;>
        (simp only [buildBootSector1216, getElem?_secList, wrB, wrList, wr16, wr32, u32le,
           padRight_length, fsTypeStr1216_length, bootMsg_length, bootCodeStub_length,
           ite_apply]
         norm_num)
      all_goals (apply getD_opt; simp [padRight_length])
    · rw [if_neg hn]
      symm
      apply List.getElem?_eq_none
      rw [padRight_length]
      omega
  · intro g volLabel oem
    apply List.ext_getElem?
    intro n
    rw [List.getElem?_take]
    by_cases hn : n < 11
    · rw [if_pos hn, List.getElem?_drop]
      interval_cases n <;>
        (simp only [buildBootSector32, getElem?_secList, wrB, wrList, wr16, wr32, u32le,
           padRight_length, bootMsg_length, bootCodeStub32_length, ite_apply]
         norm_num)
      all_goals (apply getD_opt; simp [padRight_length])
    · rw [if_neg hn]
      symm
      apply List.getElem?_eq_none
      rw [padRight_length]
      omega

/-- C1: the claimed identity `reservedSectors + numFATs*fatSectors +
rootDirSectors + dataSectors == totalSectors` fails on the code.  For
FAT32 at size 268,972,032 bytes (525,336 total sectors) the planner
succeeds, but its convergence loop exhausts all 8 iterations in a 1-step
cycle between FAT-size candidates 513 and 512: `dataSectors = 524278` is
computed from candidate 513 while the loop's final write leaves
`SectorsPerFAT32 = 512`, which is what `computeLayout` returns.  Hence
`32 + 2*512 + 0 + 524278 = 525334 ≠ 525336` — the layout does not add up
(and the boot sector would record a FAT size inconsistent with the data
area).  The cluster count 65534 is in the FAT32 range, so the guard does
not catch it. -/
theorem computeLayout_sum_mismatch_fat32 :
    (planGeom FATType.fat32 268972032).map
        (fun g => (g.ReservedSectors, g.NumFATs, g.TotalSectors16, g.TotalSectors32)) =
      .ok (32, 2, 0, 525336) ∧
    (planLayout FATType.fat32 268972032).map
        (fun r => (r.1, r.2.1, r.2.2.1, r.2.2.2.1)) = .ok (512, 0, 524278, 65534) ∧
    32 + 2 * 512 + 0 + 524278 ≠ 525336 :=
  ⟨by decide, by decide, by decide⟩

/-- C2: `computeLayout` does not fail whenever the data area would be
non-positive.  The check `dataSectors <= 0` is performed on a `uint32`, so
it only catches an exact zero; when reserved+FAT sectors exceed the total,
the subtraction wraps.  For FAT32 at size 512 bytes (1 total sector,
32 reserved), the wrapped `dataSectors = 4286595009` yields a huge cluster
count that passes the `>= 65525` FAT32 guard, and the planner returns
success even though `reservedSectors + numFATs*fatSectors` vastly exceeds
the 1 total sector. -/
theorem computeLayout_accepts_underflowed_data_area :
    (planGeom FATType.fat32 512).map
        (fun g => (g.ReservedSectors, g.NumFATs, g.TotalSectors16, g.TotalSectors32)) =
      .ok (32, 2, 1, 0) ∧
    (planLayout FATType.fat32 512).map
        (fun r => (r.1, r.2.1, r.2.2.1, r.2.2.2.1)) =
      .ok (4186128, 0, 4286595009, 535824376) ∧
    1 < 32 + 2 * 4186128 :=
  ⟨by decide, by decide, by decide⟩

/-- C5: `presetForSizeBytes` returns the fixed preset values for each
canonical floppy capacity with FAT12/FAT16; in particular 1.44M FAT12
gives sectors/track 18, root entries 224, sectors/FAT 9. -/
theorem presetForSizeBytes_canonical_values :
    (presetForSizeBytes FATType.fat12 368640).map
        (fun g => (g.SectorsPerTrack, g.RootEntries, g.SectorsPerFAT16)) = .ok (9, 64, 2) ∧
    (presetForSizeBytes FATType.fat16 368640).map
        (fun g => (g.SectorsPerTrack, g.RootEntries, g.SectorsPerFAT16)) = .ok (9, 64, 2) ∧
    (presetForSizeBytes FATType.fat12 737280).map
        (fun g => (g.SectorsPerTrack, g.RootEntries, g.SectorsPerFAT16)) = .ok (9, 112, 3) ∧
    (presetForSizeBytes FATType.fat16 737280).map
        (fun g => (g.SectorsPerTrack, g.RootEntries, g.SectorsPerFAT16)) = .ok (9, 112, 3) ∧
    (presetForSizeBytes FATType.fat12 1228800).map
        (fun g => (g.SectorsPerTrack, g.RootEntries, g.SectorsPerFAT16)) = .ok (15, 224, 7) ∧
    (presetForSizeBytes FATType.fat16 1228800).map
        (fun g => (g.SectorsPerTrack, g.RootEntries, g.SectorsPerFAT16)) = .ok (15, 224, 7) ∧
    (presetForSizeBytes FATType.fat12 1474560).map
        (fun g => (g.SectorsPerTrack, g.RootEntries, g.SectorsPerFAT16)) = .ok (18, 224, 9) ∧
    (presetForSizeBytes FATType.fat16 1474560).map
        (fun g => (g.SectorsPerTrack, g.RootEntries, g.SectorsPerFAT16)) = .ok (18, 224, 9) ∧
    (presetForSizeBytes FATType.fat12 2949120).map
        (fun g => (g.SectorsPerTrack, g.RootEntries, g.SectorsPerFAT16)) = .ok (36, 240, 9) ∧
    (presetForSizeBytes FATType.fat16 2949120).map
        (fun g => (g.SectorsPerTrack, g.RootEntries, g.SectorsPerFAT16)) = .ok (36, 240, 18) := by
  exact ⟨by decide, by decide, by decide, by decide, by decide, by decide, by decide,
         by decide, by decide, by decide⟩

/-- C7 counterexample: at size 0 with FAT32 the planner produces a
geometry descriptor whose total-sector fields are *both* zero — "exactly
one of the two fields is non-zero" fails — and `computeLayout` still
accepts it (the wrapped data-area computation makes the run succeed). -/
theorem setTotals_both_zero_at_size_zero :
    (planGeom FATType.fat32 0).map (fun g => (g.TotalSectors16, g.TotalSectors32)) =
      .ok (0, 0) ∧
    (planLayout FATType.fat32 0).isOk = true :=
  ⟨by decide, by decide⟩

/-- C4 counterexample: for FAT12 at size 192,000 bytes (375 total
sectors) the convergence loop never stabilizes — it cycles between
FAT-size candidates 1 and 2 for all 8 iterations (`stabilized = false`) —
yet the planner returns a successful layout with FAT size 1, for which the
recomputed requirement is `need1216 = 2 ≠ 1`.  So the planner neither
returns a stabilized FAT size nor reports a geometry-infeasible error. -/
theorem fatLoop_nonstabilized_success :
    (planGeom FATType.fat12 192000).map (fun g => runLoop FATType.fat12 g) =
      .ok (.ok ⟨1, 340, 340, 2, false, 8⟩) ∧
    (planLayout FATType.fat12 192000).map
        (fun r => (r.1, r.2.1, r.2.2.1, r.2.2.2.1)) = .ok (1, 32, 340, 340) ∧
    need1216 FATType.fat12 512 340 = 2 ∧ (2 : Nat) ≠ 1 :=
  ⟨by decide, by decide, by decide, by decide⟩

/-- C6: the initialised FAT buffer reserves its first entries per variant —
FAT12: `media, 0xFF, 0xFF`; FAT16: `media, 0xFF, 0xFF, 0xFF`; FAT32: the
three little-endian 4-byte entries `0x0FFFFF00|media, 0x0FFFFFFF,
0x0FFFFFFF` — with every remaining byte zero, and the format command
writes the very same buffer at both FAT copy locations. -/
theorem initFAT_reserved_entries_and_copies :
    (∀ (media n : Nat), 3 ≤ n →
      initFAT1216 FATType.fat12 (List.replicate n 0) media =
        media :: 0xFF :: 0xFF :: List.replicate (n - 3) 0) ∧
    (∀ (media n : Nat), 4 ≤ n →
      initFAT1216 FATType.fat16 (List.replicate n 0) media =
        media :: 0xFF :: 0xFF :: 0xFF :: List.replicate (n - 4) 0) ∧
    (∀ (media n : Nat), 12 ≤ n →
      initFAT32 (List.replicate n 0) media =
        u32le (Nat.lor 0x0FFFFF00 media) ++ u32le 0x0FFFFFFF ++ u32le 0x0FFFFFFF ++
          List.replicate (n - 12) 0) ∧
    (∀ (ft : FATType) (g : Geom) (fatSecs : Nat),
      (fatCopyWrites ft g fatSecs).1.2 = (fatCopyWrites ft g fatSecs).2.2) := by
  refine ⟨?_, ?_, ?_, fun ft g fatSecs => rfl⟩
  · intro media n h
    obtain ⟨m, rfl⟩ : ∃ m, n = m + 3 := ⟨n - 3, by omega⟩
    have hrep : List.replicate (m + 3) (0 : Nat) = 0 :: 0 :: 0 :: List.replicate m 0 := rfl
    simp only [initFAT1216, hrep]
    rw [if_pos (by simp)]
    rfl
  · intro media n h
    obtain ⟨m, rfl⟩ : ∃ m, n = m + 4 := ⟨n - 4, by omega⟩
    have hrep : List.replicate (m + 4) (0 : Nat) =
        0 :: 0 :: 0 :: 0 :: List.replicate m 0 := rfl
    simp only [initFAT1216, hrep]
    rw [if_pos (by simp)]
    rfl
  · intro media n h
    obtain ⟨m, rfl⟩ : ∃ m, n = m + 12 := ⟨n - 12, by omega⟩
    have hrep : List.replicate (m + 12) (0 : Nat) =
        0 :: 0 :: 0 :: 0 :: 0 :: 0 :: 0 :: 0 :: 0 :: 0 :: 0 :: 0 ::
          List.replicate m 0 := rfl
    simp only [initFAT32, putEntry32, hrep]
    rw [if_pos (by simp)]
    rw [if_pos (by simp)]
    rw [if_pos (by simp)]
    rfl

/-- Witness for C6 at media 0xF0 / 0xF8 and a 16-byte buffer. -/
theorem initFAT_reserved_entries_and_copies_witness :
    (3 ≤ 16 ∧
      initFAT1216 FATType.fat12 (List.replicate 16 0) 0xF0 =
        0xF0 :: 0xFF :: 0xFF :: List.replicate (16 - 3) 0) ∧
    (4 ≤ 16 ∧
      initFAT1216 FATType.fat16 (List.replicate 16 0) 0xF0 =
        0xF0 :: 0xFF :: 0xFF :: 0xFF :: List.replicate (16 - 4) 0) ∧
    (12 ≤ 16 ∧
      initFAT32 (List.replicate 16 0) 0xF8 =
        u32le (Nat.lor 0x0FFFFF00 0xF8) ++ u32le 0x0FFFFFFF ++ u32le 0x0FFFFFFF ++
          List.replicate (16 - 12) 0) :=
  ⟨⟨by decide, initFAT_reserved_entries_and_copies.1 0xF0 16 (by decide)⟩,
   ⟨by decide, initFAT_reserved_entries_and_copies.2.1 0xF0 16 (by decide)⟩,
   ⟨by decide, initFAT_reserved_entries_and_copies.2.2.1 0xF8 16 (by decide)⟩⟩

theorem loop1216_ok (ft : FATType) (bps spc res nf root total : Nat) :
    ∀ (fuel spf : Nat) (prev : Nat × Nat × Nat) (it : Nat) (out : LoopOut),
      loop1216 ft bps spc res nf root total fuel spf prev it = .ok out →
      out.iters ≤ it + fuel ∧
      (out.stabilized = true →
        need1216 ft bps out.clusters = out.fat ∧ out.spf = out.fat) := by
  intro fuel
  induction fuel with
  | zero =>
    intro spf prev it out h
    simp only [loop1216, Except.ok.injEq] at h
    subst h
    exact ⟨le_refl _, by simp⟩
  | succ fuel ih =>
    intro spf prev it out h
    simp only [loop1216] at h
    by_cases hd : sub32 (sub32 (sub32 total res) (w32 (nf * spf))) root = 0
    · rw [if_pos hd] at h
      exact absurd h (by simp)
    · rw [if_neg hd] at h
      by_cases hb :
          need1216 ft bps (sub32 (sub32 (sub32 total res) (w32 (nf * spf))) root / spc) = spf
      · rw [if_pos hb] at h
        simp only [Except.ok.injEq] at h
        subst h
        refine ⟨?_, fun _ => ⟨hb, rfl⟩⟩
        show it + 1 ≤ it + (fuel + 1)
        omega
      · rw [if_neg hb] at h
        have := ih _ _ _ _ h
        exact ⟨by omega, this.2⟩

theorem loop32_ok (bps spc res nf total : Nat) :
    ∀ (fuel spf : Nat) (prev : Nat × Nat × Nat) (it : Nat) (out : LoopOut),
      loop32 bps spc res nf total fuel spf prev it = .ok out →
      out.iters ≤ it + fuel ∧
      (out.stabilized = true →
        need32 bps out.clusters = out.fat ∧
        (out.spf = out.fat ∨ (out.spf = 0 ∧ out.fat = 1))) := by
  intro fuel
  induction fuel with
  | zero =>
    intro spf prev it out h
    simp only [loop32, Except.ok.injEq] at h
    subst h
    exact ⟨le_refl _, by simp⟩
  | succ fuel ih =>
    intro spf prev it out h
    simp only [loop32] at h
    by_cases hd : sub32 (sub32 total res) (w32 (nf * (if spf = 0 then 1 else spf))) = 0
    · rw [if_pos hd] at h
      exact absurd h (by simp)
    · rw [if_neg hd] at h
      by_cases hb :
          need32 bps
              (sub32 (sub32 total res) (w32 (nf * (if spf = 0 then 1 else spf))) / spc) =
            (if spf = 0 then 1 else spf)
      · rw [if_pos hb] at h
        simp only [Except.ok.injEq] at h
        subst h
        refine ⟨?_, fun _ => ⟨hb, ?_⟩⟩
        · show it + 1 ≤ it + (fuel + 1)
          omega
        by_cases hz : spf = 0
        · exact Or.inr ⟨hz, by simp [hz]⟩
        · exact Or.inl (by simp [hz])
      · rw [if_neg hb] at h
        have := ih _ _ _ _ h
        exact ⟨by omega, this.2⟩

/-- C4 (amended): the FAT-size convergence loop executes at most 8
iterations for every input (and, being a total function, always
terminates); whenever it exits because the candidate stabilized, the FAT
size it leaves behind is a genuine fixed point of the recomputation
(`need(clusters) = fatSectors`, with the stored sectors-per-FAT field equal
to that fixed point, except for the degenerate FAT32 zero-candidate break).
When the 8-iteration bound is exhausted without stabilizing, however, the
planner can still return a successful layout whose FAT size is not
stabilized (see the counterexample at FAT12, size 192,000 bytes). -/
theorem fatLoop_bounded_stabilized :
    ∀ (ft : FATType) (g : Geom) (out : LoopOut), runLoop ft g = .ok out →
      out.iters ≤ 8 ∧
      (out.stabilized = true →
        (match ft with
         | FATType.fat32 => need32 g.BytesPerSector out.clusters
         | _ => need1216 ft g.BytesPerSector out.clusters) = out.fat ∧
        (out.spf = out.fat ∨ (out.spf = 0 ∧ out.fat = 1))) := by
  intro ft g out h
  cases ft with
  | fat32 =>
    have := loop32_ok g.BytesPerSector g.SectorsPerCluster g.ReservedSectors g.NumFATs
      (totalSectorsOf g) 8 g.SectorsPerFAT32 (0, 0, 0) 0 out h
    exact ⟨this.1, fun hs => (this.2 hs)⟩
  | fat12 =>
    have := loop1216_ok FATType.fat12 g.BytesPerSector g.SectorsPerCluster g.ReservedSectors
      g.NumFATs (rootDirSectorsOf g) (totalSectorsOf g) 8 g.SectorsPerFAT16 (0, 0, 0) 0 out h
    exact ⟨this.1, fun hs => ⟨(this.2 hs).1, Or.inl (this.2 hs).2⟩⟩
  | fat16 =>
    have := loop1216_ok FATType.fat16 g.BytesPerSector g.SectorsPerCluster g.ReservedSectors
      g.NumFATs (rootDirSectorsOf g) (totalSectorsOf g) 8 g.SectorsPerFAT16 (0, 0, 0) 0 out h
    exact ⟨this.1, fun hs => ⟨(this.2 hs).1, Or.inl (this.2 hs).2⟩⟩

/-- Witness for C4 at the 1.44M FAT12 geometry: the loop stabilizes on its
first iteration at FAT size 9, a fixed point of the recomputation. -/
theorem fatLoop_bounded_stabilized_witness :
    runLoop FATType.fat12 geom1440 = Except.ok ⟨9, 2847, 2847, 9, true, 1⟩ ∧
    (1 : Nat) ≤ 8 ∧ need1216 FATType.fat12 geom1440.BytesPerSector 2847 = 9 :=
  have h := fatLoop_bounded_stabilized FATType.fat12 geom1440
    ⟨9, 2847, 2847, 9, true, 1⟩ (by decide)
  ⟨by decide, h.1, (h.2 rfl).1⟩

theorem setTotals_fields (total : Nat) (g : Geom) :
    ¬((setTotals total g).TotalSectors16 ≠ 0 ∧ (setTotals total g).TotalSectors32 ≠ 0) ∧
    ((setTotals total g).TotalSectors16 ≠ 0 ↔ (0 < total ∧ total ≤ 65535)) ∧
    ((setTotals total g).TotalSectors32 ≠ 0 ↔ 65535 < total) := by
  by_cases h : total ≤ 65535 <;> (simp [setTotals, h]; omega)

/-- C7 (amended): the total-sector assignment never sets both fields: at
most one of `TotalSectors16`/`TotalSectors32` is non-zero, the 16-bit field
is used exactly when `0 < total ≤ 65535` and the 32-bit field exactly when
`total > 65535`; when the assigned total is zero (e.g. target size 0) both
fields are zero, so "exactly one non-zero" holds only for non-zero
totals. -/
theorem totalSectors_field_selection :
    (∀ (total : Nat) (g : Geom),
      ¬((setTotals total g).TotalSectors16 ≠ 0 ∧ (setTotals total g).TotalSectors32 ≠ 0) ∧
      ((setTotals total g).TotalSectors16 ≠ 0 ↔ (0 < total ∧ total ≤ 65535)) ∧
      ((setTotals total g).TotalSectors32 ≠ 0 ↔ 65535 < total)) ∧
    (∀ (ft : FATType) (size : Nat) (g : Geom), planGeom ft size = .ok g →
      ¬(g.TotalSectors16 ≠ 0 ∧ g.TotalSectors32 ≠ 0) ∧
      (g.TotalSectors16 ≠ 0 ↔ (0 < w32 (size / 512) ∧ w32 (size / 512) ≤ 65535)) ∧
      (g.TotalSectors32 ≠ 0 ↔ 65535 < w32 (size / 512))) := by
  refine ⟨setTotals_fields, ?_⟩
  intro ft size g hok
  cases hp : presetForSizeBytes ft size with
  | error e =>
    rw [planGeom, hp] at hok
    simp [Except.map] at hok
  | ok g0 =>
    rw [planGeom, hp] at hok
    simp only [Except.map, Except.ok.injEq] at hok
    subst hok
    exact setTotals_fields _ _

/-- Witness for C7 at the 1.44M FAT12 geometry (total 2880 sectors fits in
the 16-bit field). -/
theorem totalSectors_field_selection_witness :
    planGeom FATType.fat12 1474560 = Except.ok geom1440 ∧
    (¬(geom1440.TotalSectors16 ≠ 0 ∧ geom1440.TotalSectors32 ≠ 0) ∧
     (geom1440.TotalSectors16 ≠ 0 ↔
        (0 < w32 (1474560 / 512) ∧ w32 (1474560 / 512) ≤ 65535)) ∧
     (geom1440.TotalSectors32 ≠ 0 ↔ 65535 < w32 (1474560 / 512))) :=
  ⟨by decide, totalSectors_field_selection.2 FATType.fat12 1474560 geom1440 (by decide)⟩

theorem getD_set_true (pm : List Bool) (k j : Nat) (h : pm.getD j false = true) :
    (pm.set k true).getD j false = true := by
  rw [List.getD_eq_getElem?_getD] at h ⊢
  rw [List.getElem?_set]
  by_cases hk : k = j
  · rw [if_pos hk]
    by_cases hl : k < pm.length
    · rw [if_pos hl]
      rfl
    · rw [if_neg hl]
      subst hk
      rw [List.getElem?_eq_none (by omega)] at h
      exact h
  · rw [if_neg hk]
    exact h

theorem markSeq_getD_mono : ∀ (n : Nat) (pm : List Bool) (i : Int) (j : Nat),
    pm.getD j false = true → (markSeq pm i n).getD j false = true := by
  intro n
  induction n with
  | zero => intro pm i j h; exact h
  | succ n ih =>
    intro pm i j h
    simp only [markSeq]
    apply ih
    split
    · exact getD_set_true _ _ _ h
    · exact h

theorem markSeq_length : ∀ (n : Nat) (pm : List Bool) (i : Int),
    (markSeq pm i n).length = pm.length := by
  intro n
  induction n with
  | zero => intro pm i; rfl
  | succ n ih =>
    intro pm i
    simp only [markSeq]
    rw [ih]
    split
    · exact List.length_set _ _ _
    · rfl

theorem applyMarks_length : ∀ (ops : List (Int × Int)) (pt : ProgressTracker),
    (applyMarks pt ops).progressMap.length = pt.progressMap.length := by
  intro ops
  induction ops with
  | nil => intro pt; rfl
  | cons op rest ih =>
    intro pt
    simp only [applyMarks]
    rw [ih]
    simp only [markRange]
    exact markSeq_length _ _ _

theorem applyMarks_getD_mono : ∀ (ops : List (Int × Int)) (pt : ProgressTracker) (j : Nat),
    pt.progressMap.getD j false = true →
    (applyMarks pt ops).progressMap.getD j false = true := by
  intro ops
  induction ops with
  | nil => intro pt j h; exact h
  | cons op rest ih =>
    intro pt j h
    simp only [applyMarks]
    exact ih _ j (markSeq_getD_mono _ _ _ _ h)

theorem uiMarkSeq_spec : ∀ (n : Nat) (pm : List Bool) (wr : Int) (i : Int),
    ((uiMarkSeq pm wr i n).1.length = pm.length) ∧
    (∀ j, pm.getD j false = true → (uiMarkSeq pm wr i n).1.getD j false = true) ∧
    (wr = (pm.count true : Int) →
      (uiMarkSeq pm wr i n).2 = ((uiMarkSeq pm wr i n).1.count true : Int)) := by
  intro n
  induction n with
  | zero =>
    intro pm wr i
    exact ⟨rfl, fun j h => h, fun h => h⟩
  | succ n ih =>
    intro pm wr i
    simp only [uiMarkSeq]
    by_cases hc : 0 ≤ i ∧ i.toNat < pm.length
    · rw [if_pos hc]
      by_cases hg : pm.getD i.toNat false = true
      · rw [if_pos hg]
        exact ih pm wr (i + 1)
      · rw [if_neg hg]
        refine ⟨?_, ?_, ?_⟩
        · rw [(ih _ _ _).1, List.length_set]
        · intro j h
          exact (ih _ _ _).2.1 j (getD_set_true _ _ _ h)
        · intro h
          apply (ih _ _ _).2.2
          have hfalse : pm[i.toNat] = false := by
            have hd := List.getD_eq_getElem pm false hc.2
            rw [hd] at hg
            exact Bool.eq_false_iff.mpr hg
          rw [List.count_set true true pm i.toNat hc.2, hfalse]
          simp [h]
    · rw [if_neg hc]
      exact ih pm wr (i + 1)

theorem applyUIMarks_spec : ∀ (ops : List (Int × Int)) (u : UIModel),
    u.written = (u.sectorMap.count true : Int) →
    ((applyUIMarks u ops).written = ((applyUIMarks u ops).sectorMap.count true : Int) ∧
     (applyUIMarks u ops).sectorMap.length = u.sectorMap.length) := by
  intro ops
  induction ops with
  | nil => intro u h; exact ⟨h, rfl⟩
  | cons op rest ih =>
    intro u h
    simp only [applyUIMarks]
    have hspec := uiMarkSeq_spec ((if u.totalSectors < op.1 + op.2 then u.totalSectors
        else op.1 + op.2) - op.1).toNat u.sectorMap u.written op.1
    have hnext := ih (uiMarkRange u op.1 op.2) (by
      simp only [uiMarkRange]
      exact hspec.2.2 h)
    refine ⟨hnext.1, hnext.2.trans ?_⟩
    simp only [uiMarkRange]
    exact hspec.1

/-- C8: the sector completion maps are monotone — `markRange` and
`UI.MarkRange` preserve the map length and never reset a `true` entry to
`false` (each entry only transitions `false → true`), over any sequence of
calls; and the count of marked sectors never exceeds the total sector
count. -/
theorem sectorMap_monotone :
    (∀ (pt : ProgressTracker) (s c : Int) (i : Nat),
      (markRange pt s c).progressMap.length = pt.progressMap.length ∧
      (pt.progressMap.getD i false = true →
        (markRange pt s c).progressMap.getD i false = true)) ∧
    (∀ (pt : ProgressTracker) (ops : List (Int × Int)) (i : Nat),
      pt.progressMap.getD i false = true →
      (applyMarks pt ops).progressMap.getD i false = true) ∧
    (∀ (total : Nat) (ops : List (Int × Int)),
      writtenCount (applyMarks (newProgressTracker total) ops) ≤ total) ∧
    (∀ (u : UIModel) (s c : Int) (i : Nat),
      (uiMarkRange u s c).sectorMap.length = u.sectorMap.length ∧
      (u.sectorMap.getD i false = true →
        (uiMarkRange u s c).sectorMap.getD i false = true)) ∧
    (∀ (bytesTotal : Nat) (ops : List (Int × Int)),
      (applyUIMarks (newUIModel bytesTotal) ops).written ≤
        (newUIModel bytesTotal).totalSectors) := by
  refine ⟨?_, fun pt ops i h => applyMarks_getD_mono ops pt i h, ?_, ?_, ?_⟩
  · intro pt s c i
    constructor
    · simp only [markRange]
      exact markSeq_length _ _ _
    · intro h
      simp only [markRange]
      exact markSeq_getD_mono _ _ _ _ h
  · intro total ops
    have hlen : (applyMarks (newProgressTracker total) ops).progressMap.length = total := by
      rw [applyMarks_length]
      simp [newProgressTracker]
    have hcount :=
      List.count_le_length true (applyMarks (newProgressTracker total) ops).progressMap
    unfold writtenCount
    omega
  · intro u s c i
    constructor
    · simp only [uiMarkRange]
      exact (uiMarkSeq_spec _ _ _ _).1
    · intro h
      simp only [uiMarkRange]
      exact (uiMarkSeq_spec _ _ _ _).2.1 i h
  · intro bytesTotal ops
    have hinv := applyUIMarks_spec ops (newUIModel bytesTotal)
      (by simp [newUIModel, List.count_replicate])
    rw [hinv.1]
    have hlen : (applyUIMarks (newUIModel bytesTotal) ops).sectorMap.length =
        bytesTotal / 512 := by
      rw [hinv.2]
      simp [newUIModel]
    have hcount :=
      List.count_le_length true (applyUIMarks (newUIModel bytesTotal) ops).sectorMap
    show _ ≤ ((bytesTotal / 512 : Nat) : Int)
    rw [hlen] at hcount
    exact_mod_cast hcount

/-- Witness for C8 at small concrete maps and run sequences. -/
theorem sectorMap_monotone_witness :
    ([true, false].getD 0 false = true) ∧
    ((markRange ⟨[true, false], 2, 0⟩ 1 1).progressMap.getD 0 false = true) ∧
    ((applyMarks ⟨[true, false], 2, 0⟩ [(1, 1)]).progressMap.getD 0 false = true) ∧
    writtenCount (applyMarks (newProgressTracker 4) [(0, 2), (1, 3)]) ≤ 4 ∧
    ((uiMarkRange ⟨[true, false], 2, 0, 0⟩ 1 1).sectorMap.getD 0 false = true) ∧
    (applyUIMarks (newUIModel 2048) [(0, 2), (1, 3)]).written ≤
      (newUIModel 2048).totalSectors :=
  ⟨by decide,
   (sectorMap_monotone.1 ⟨[true, false], 2, 0⟩ 1 1 0).2 (by decide),
   sectorMap_monotone.2.1 ⟨[true, false], 2, 0⟩ [(1, 1)] 0 (by decide),
   sectorMap_monotone.2.2.1 4 [(0, 2), (1, 3)],
   (sectorMap_monotone.2.2.2.1 ⟨[true, false], 2, 0, 0⟩ 1 1 0).2 (by decide),
   sectorMap_monotone.2.2.2.2 2048 [(0, 2), (1, 3)]⟩

theorem collectBad_eq (rb : Nat → Nat → Nat) :
    ∀ (r pos : Nat) (acc : List Nat),
      collectBad rb r pos acc =
        acc ++ ((List.range r).map (pos + ·)).filter
          (fun s => !(checkBadSector rb s).isOk) := by
  intro r
  induction r using Nat.strong_induction_on with
  | _ r ih =>
    intro pos acc
    rw [collectBad]
    by_cases h : r = 0
    · subst h
      simp
    · rw [dif_neg h]
      have hk1 : 1 ≤ min 2048 r := le_min (by norm_num) (by omega)
      have hkr : min 2048 r ≤ r := Nat.min_le_right _ _
      rw [ih (r - min 2048 r) (by omega)]
      rw [List.append_assoc]
      congr 1
      conv_rhs => rw [show r = min 2048 r + (r - min 2048 r) by omega]
      rw [List.range_add, List.map_append, List.filter_append]
      congr 1
      rw [List.map_map]
      have hfun : ((pos + ·) ∘ (min 2048 r + ·)) = ((pos + min 2048 r) + ·) := by
        funext x
        simp only [Function.comp]
        omega
      rw [hfun]

/-- C9: `fullFormatDataArea` never aborts at the first verification
failure: it scans the whole data area `[absStart, absStart+sectors)` and
returns success iff no sector fails verification, otherwise an error
carrying exactly the list of all failing sector indices, in order (the
source formats that list into the `"found %d bad sector(s): %v"` message;
the caller reports it as a non-fatal WARNING and the run proceeds to
completion). -/
theorem fullFormat_aggregates_bad_sectors :
    ∀ (readBack : Nat → Nat → Nat) (absStart sectors : Nat),
      fullFormatDataArea readBack absStart sectors =
        (if ((List.range sectors).map (absStart + ·)).filter
              (fun s => !(checkBadSector readBack s).isOk) = [] then Except.ok ()
         else Except.error (((List.range sectors).map (absStart + ·)).filter
              (fun s => !(checkBadSector readBack s).isOk))) := by
  intro rb absStart sectors
  simp only [fullFormatDataArea, collectBad_eq, List.nil_append]

end Mkfat
